import Mathlib

/-!
Verification of the GoPro 360 remote application's service layer.

The development shallowly embeds the two service classes of the code base:

* `GoProBluetoothService` (src/services/GoProBluetoothService.ts): BLE scanning,
  device classification, connect/disconnect, WiFi credential retrieval.  The
  mutable instance fields (`isScanning`, `discoveredDevices`, `connectedDevice`,
  `connectionStatus`) become an explicit state record; every method becomes a
  pure function from the state (plus the transport outcomes it awaits) to a
  result and a new state.
* `GoProService` (the HTTP camera client): the shared `makeRequest` path with
  its abort-controller timeout, `pingCamera`, the `getCameraStatus`-derived
  reads and the media-list filtering.  The behaviour of the runtime `fetch`
  call is an explicit `HttpOutcome` input, and the request duration is a
  natural-number parameter compared against the configured timeout, mirroring
  the `setTimeout(() => controller.abort(), timeout)` race.

Transport calls that the TypeScript code awaits (BLE connect, service
discovery, characteristic reads, teardown) are modelled as `Except String`
fields carried by the device/service/characteristic records: `Except.ok` is a
resolved promise and `Except.error msg` a rejection whose `message` is `msg`.
-/

namespace GoProSpec

/-- ASCII lower-casing of a single character, as JavaScript `toLowerCase`
behaves on the ASCII range used by the device names, UUIDs and media names in
this code base. -/
def toLowerChar (c : Char) : Char :=
  if 65 ≤ c.toNat ∧ c.toNat ≤ 90 then Char.ofNat (c.toNat + 32) else c

/-- Model of JavaScript `String.prototype.toLowerCase`. -/
def strToLower (s : String) : String :=
  ⟨s.data.map toLowerChar⟩

/-- Decides whether the first list occurs as a contiguous sublist of the
second. -/
def listIsInfix (p : List Char) : List Char → Bool
  | [] => p.isEmpty
  | c :: tl => p.isPrefixOf (c :: tl) || listIsInfix p tl

/-- Model of JavaScript `String.prototype.includes`. -/
def strIncludes (s pat : String) : Bool :=
  listIsInfix pat.data s.data

/-- Model of the JavaScript idiom `a || b` on an optional string: an absent or
empty string falls through to the default. -/
def jsOrStr (a : Option String) (b : String) : String :=
  match a with
  | some s => if s = "" then b else s
  | none => b

/-! Configuration constants from src/config/GoProConfig.ts. -/

/-- GOPRO_DEVICE_PATTERNS from GoProConfig.ts. -/
def GOPRO_DEVICE_PATTERNS : List String :=
  ["gopro", "hero", "gopro hero", "gopro max", "gopro fusion"]

/-- BLE_CHARACTERISTICS.WIFI_SSID from GoProConfig.ts. -/
def WIFI_SSID : String := "fea6-0001"

/-- BLE_CHARACTERISTICS.WIFI_PASSWORD from GoProConfig.ts. -/
def WIFI_PASSWORD : String := "fea6-0002"

/-- API_TIMEOUT from GoProConfig.ts, in milliseconds. -/
def API_TIMEOUT : Nat := 5000

/-- ENDPOINTS.STATUS from GoProConfig.ts. -/
def STATUS_ENDPOINT : String := "/gp/gpControl/status"

/-- ENDPOINTS.INFO from GoProConfig.ts. -/
def INFO_ENDPOINT : String := "/gp/gpControl/info"

/-- ENDPOINTS.MEDIA_LIST from GoProConfig.ts. -/
def MEDIA_LIST_ENDPOINT : String := "/gp/gpMediaList"

/-! Error taxonomy and result type from src/types/GoProTypes.ts. -/

/-- GoProErrorType from GoProTypes.ts. -/
inductive GoProErrorType where
  | bluetooth_not_supported
  | bluetooth_permission_denied
  | device_not_found
  | connection_failed
  | api_timeout
  | network_error
  | invalid_response
  | camera_not_responding
  | wifi_connection_failed
  | unknown
deriving DecidableEq, Repr

/-- GoProError from GoProTypes.ts. -/
structure GoProError where
  type : GoProErrorType
  message : String
  details : Option String
  timestamp : Nat
deriving DecidableEq, Repr

/-- Shared `createError` helper of both service classes; `now` is the value of
`Date.now()` at the call. -/
def createError (t : GoProErrorType) (message : String) (details : Option String)
    (now : Nat) : GoProError :=
  ⟨t, message, details, now⟩

/-- AsyncResult payload from GoProTypes.ts:
`{ success: true; data: T } | { success: false; error: GoProError }`. -/
inductive Result (α : Type) where
  | ok : α → Result α
  | err : GoProError → Result α
deriving DecidableEq, Repr

/-- Tests the `success` flag of a result. -/
def isOk {α : Type} : Result α → Bool
  | .ok _ => true
  | .err _ => false

/-- Error kind of a failed result, `none` on success. -/
def errType {α : Type} : Result α → Option GoProErrorType
  | .ok _ => none
  | .err e => some e.type

/-- Error detail of a failed result, `none` on success. -/
def errDetails {α : Type} : Result α → Option String
  | .ok _ => none
  | .err e => e.details

/-! Bluetooth data model (react-native-ble-plx objects as seen by the code). -/

/-- Adapter states of react-native-ble-plx. -/
inductive BleState where
  | Unknown
  | Resetting
  | Unsupported
  | Unauthorized
  | PoweredOff
  | PoweredOn
deriving DecidableEq, Repr

/-- BLE characteristic; `readResult` is the outcome the platform produces for
`characteristic.read()`: the read value is the base64-encoded payload, which
may be null (`none`). -/
structure Characteristic where
  uuid : String
  readResult : Except String (Option String)
deriving Repr

/-- BLE service; `charsResult` is the outcome of `service.characteristics()`. -/
structure Service where
  uuid : String
  charsResult : Except String (List Characteristic)
deriving Repr

/-- BLE device, together with the outcomes the transport produces for the
operations the code awaits on it: `device.connect()`,
`device.discoverAllServicesAndCharacteristics()` (as the resulting service
list) and `device.cancelConnection()`. -/
structure Device where
  id : String
  name : Option String
  localName : Option String
  rssi : Option Int
  connectResult : Except String Unit
  discoverResult : Except String (List Service)
  cancelConnectionResult : Except String Unit
deriving Repr

/-- GoProBluetoothDevice from GoProTypes.ts. -/
structure GoProBluetoothDevice where
  device : Device
  name : String
  rssi : Int
  isGoPro : Bool
  services : Option (List Service)
  characteristics : Option (List Characteristic)
deriving Repr

/-- ConnectionStatus from GoProTypes.ts. -/
inductive ConnectionStatus where
  | disconnected
  | bluetooth_pairing
  | bluetooth_connected
  | wifi_connecting
  | wifi_connected
deriving DecidableEq, Repr

/-- Mutable instance fields of `GoProBluetoothService`.  The discovered-device
`Map` is an insertion-ordered association list keyed by device id. -/
structure BluetoothServiceState where
  isScanning : Bool
  discoveredDevices : List (String × GoProBluetoothDevice)
  connectedDevice : Option GoProBluetoothDevice
  connectionStatus : ConnectionStatus
deriving Repr

/-- JavaScript `Map.prototype.get`. -/
def mapGet {β : Type} : List (String × β) → String → Option β
  | [], _ => none
  | (k2, v) :: tl, k => if k2 = k then some v else mapGet tl k

/-- JavaScript `Map.prototype.set`: replaces in place or appends. -/
def mapSet {β : Type} : List (String × β) → String → β → List (String × β)
  | [], k, v => [(k, v)]
  | (k2, v2) :: tl, k, v =>
      if k2 = k then (k2, v) :: tl else (k2, v2) :: mapSet tl k v

/-! GoProBluetoothService methods. -/

/-- Private `isGoProDevice` of GoProBluetoothService: lower-cases name and
local name (absent names become the empty string) and checks whether any known
pattern occurs in either. -/
def isGoProDevice (d : Device) : Bool :=
  GOPRO_DEVICE_PATTERNS.any fun pattern =>
    strIncludes (strToLower (d.name.getD "")) pattern ||
    strIncludes (strToLower (d.localName.getD "")) pattern

/-- Private `discoverServices`: returns the enumerated services, or the empty
list when the transport call rejects (the error is logged and swallowed). -/
def discoverServices (d : Device) : List Service :=
  match d.discoverResult with
  | .ok services => services
  | .error _ => []

/-- Private `discoverCharacteristics`: returns the characteristics of one
service, or the empty list when the transport call rejects. -/
def discoverCharacteristics (s : Service) : List Characteristic :=
  match s.charsResult with
  | .ok characteristics => characteristics
  | .error _ => []

/-- Construction of the updated `GoProBluetoothDevice` inside
`connectToDevice`: the enumerated services and the concatenation of each
service's characteristics are attached to the discovered device record. -/
def enumerateDevice (gd : GoProBluetoothDevice) : GoProBluetoothDevice :=
  { gd with
      services := some (discoverServices gd.device)
      characteristics :=
        some (List.flatten ((discoverServices gd.device).map discoverCharacteristics)) }

/-- Method `connectToDevice(deviceId)`.  The transient
`connectionStatus = 'bluetooth_pairing'` assignment made before awaiting the
transport connect is overwritten on both outcomes, so only the final state is
returned. -/
def connectToDevice (st : BluetoothServiceState) (deviceId : String) (now : Nat) :
    Result GoProBluetoothDevice × BluetoothServiceState :=
  match mapGet st.discoveredDevices deviceId with
  | none =>
      (.err (createError .device_not_found "Device not found in discovered devices" none now),
       st)
  | some goproDevice =>
      match goproDevice.device.connectResult with
      | .error msg =>
          (.err (createError .connection_failed "Failed to connect to GoPro device"
              (some msg) now),
           { st with connectionStatus := .disconnected })
      | .ok () =>
          (.ok (enumerateDevice goproDevice),
           { st with
               connectedDevice := some (enumerateDevice goproDevice)
               connectionStatus := .bluetooth_connected })

/-- Method `disconnect()`: when a device is connected, awaits
`cancelConnection()`; a rejection there is caught and returned as a failed
result of kind `unknown`, leaving the fields untouched. -/
def disconnect (st : BluetoothServiceState) (now : Nat) :
    Result Unit × BluetoothServiceState :=
  match st.connectedDevice with
  | none => (.ok (), st)
  | some gd =>
      match gd.device.cancelConnectionResult with
      | .ok () =>
          (.ok (), { st with connectedDevice := none, connectionStatus := .disconnected })
      | .error msg =>
          (.err (createError .unknown "Failed to disconnect" (some msg) now), st)

/-- Adapter state-change handler registered in `setupBleManager`. -/
def onStateChange (st : BluetoothServiceState) (s : BleState) : BluetoothServiceState :=
  if s = .PoweredOff then
    { st with connectionStatus := .disconnected, connectedDevice := none }
  else st

/-- Method `checkBluetoothSupport()`; `stateResult` is the outcome of
`bleManager.state()`. -/
def checkBluetoothSupport (stateResult : Except String BleState) (now : Nat) :
    Result Bool :=
  match stateResult with
  | .error msg =>
      .err (createError .unknown "Failed to check Bluetooth support" (some msg) now)
  | .ok s =>
      if s = .Unsupported then
        .err (createError .bluetooth_not_supported
          "Bluetooth is not supported on this device" none now)
      else if s = .PoweredOff then
        .err (createError .bluetooth_permission_denied
          "Bluetooth is turned off. Please enable Bluetooth in Settings." none now)
      else if s = .Unauthorized then
        .err (createError .bluetooth_permission_denied
          "Bluetooth permission denied. Please allow Bluetooth access in Settings." none now)
      else .ok (s = .PoweredOn)

/-- Side effects `startScanning` requests from the platform: whether
`bleManager.startDeviceScan` was invoked and whether the 10-second
`setTimeout(stopScanning)` duration timer was scheduled. -/
structure ScanEffects where
  startedScan : Bool
  scheduledStopTimer : Bool
deriving DecidableEq, Repr

/-- Method `startScanning()`: runs the Bluetooth support check first and
returns its failure unchanged; then, if a scan is already in flight, returns
success without touching the state; otherwise marks scanning, clears the
discovery map, starts the device scan and schedules the duration timer. -/
def startScanning (st : BluetoothServiceState) (stateResult : Except String BleState)
    (now : Nat) : Result Unit × BluetoothServiceState × ScanEffects :=
  match checkBluetoothSupport stateResult now with
  | .err e => (.err e, st, ⟨false, false⟩)
  | .ok _ =>
      if st.isScanning then
        (.ok (), st, ⟨false, false⟩)
      else
        (.ok (), { st with isScanning := true, discoveredDevices := [] }, ⟨true, true⟩)

/-- Scan callback passed to `bleManager.startDeviceScan`: on a reported error
nothing happens; a reported device passing `isGoProDevice` is inserted into
the discovery map keyed by its id. -/
def scanCallback (st : BluetoothServiceState) (error : Option String)
    (device : Option Device) : BluetoothServiceState :=
  match error with
  | some _ => st
  | none =>
      match device with
      | none => st
      | some d =>
          if isGoProDevice d then
            { st with
                discoveredDevices := mapSet st.discoveredDevices d.id
                  ⟨d, jsOrStr d.name (jsOrStr d.localName "Unknown GoPro"),
                   d.rssi.getD 0, true, none, none⟩ }
          else st

/-! Base64 decoding, modelling `Buffer.from(value, 'base64')`. -/

/-- Value of one base64 alphabet character; `none` for characters outside the
alphabet (padding included), which the decoder skips. -/
def base64CharVal (c : Char) : Option Nat :=
  if 65 ≤ c.toNat ∧ c.toNat ≤ 90 then some (c.toNat - 65)
  else if 97 ≤ c.toNat ∧ c.toNat ≤ 122 then some (c.toNat - 97 + 26)
  else if 48 ≤ c.toNat ∧ c.toNat ≤ 57 then some (c.toNat - 48 + 52)
  else if c = '+' then some 62
  else if c = '/' then some 63
  else none

/-- Packs a stream of 6-bit groups into 8-bit bytes, dropping trailing bits
that do not fill a byte. -/
def sextetsToBytes : List Nat → List Nat
  | a :: b :: c :: d :: rest =>
      (a * 4 + b / 16) :: ((b % 16) * 16 + c / 4) :: ((c % 4) * 64 + d) ::
        sextetsToBytes rest
  | [a, b] => [a * 4 + b / 16]
  | [a, b, c] => [a * 4 + b / 16, (b % 16) * 16 + c / 4]
  | _ => []

/-- Model of `Buffer.from(s, 'base64')` followed by `.toString()`: the decoded
text, represented by its byte sequence. -/
def decodeBase64 (s : String) : List Nat :=
  sextetsToBytes (s.data.filterMap base64CharVal)

/-- Model of `value ? Buffer.from(value, 'base64').toString() : ''`: a null or
empty (falsy) characteristic value decodes to the empty text. -/
def decodeCharacteristicValue (v : Option String) : List Nat :=
  match v with
  | some s => if s = "" then [] else decodeBase64 s
  | none => []

/-- Lookup of a characteristic by case-insensitive UUID substring, as in
`characteristics?.find(char => char.uuid.toLowerCase().includes(pat))`. -/
def findCharacteristic (chars : List Characteristic) (pat : String) :
    Option Characteristic :=
  chars.find? fun c => strIncludes (strToLower c.uuid) pat

/-- Method `getWiFiCredentials()`: requires a connected device, locates the
SSID and password characteristics, reads and decodes both; a rejected read is
caught and returned as `connection_failed`. -/
def getWiFiCredentials (st : BluetoothServiceState) (now : Nat) :
    Result (List Nat × List Nat) :=
  match st.connectedDevice with
  | none => .err (createError .connection_failed "No GoPro device connected" none now)
  | some gd =>
      match findCharacteristic (gd.characteristics.getD []) WIFI_SSID,
            findCharacteristic (gd.characteristics.getD []) WIFI_PASSWORD with
      | some ssidCharacteristic, some passwordCharacteristic =>
          match ssidCharacteristic.readResult with
          | .error msg =>
              .err (createError .connection_failed "Failed to get WiFi credentials"
                (some msg) now)
          | .ok ssidValue =>
              match passwordCharacteristic.readResult with
              | .error msg =>
                  .err (createError .connection_failed "Failed to get WiFi credentials"
                    (some msg) now)
              | .ok passwordValue =>
                  .ok (decodeCharacteristicValue ssidValue,
                       decodeCharacteristicValue passwordValue)
      | _, _ =>
          .err (createError .connection_failed
            "WiFi credentials characteristics not found" none now)

/-! HTTP camera client (GoProService). -/

/-- Behaviour of the runtime `fetch` call, absent any abort: either a response
(with its `ok` flag, numeric status, status text and the outcome of parsing
the body as the expected JSON shape) or a rejection carrying the error's
`name` and `message`. -/
inductive HttpOutcome (β : Type) where
  | response (ok : Bool) (status : Nat) (statusText : String)
      (jsonResult : Except String β)
  | throwNamed (name : String) (message : String)
deriving Repr

/-- Race between the request and the abort timer: when the request takes
longer than the timeout, the scheduled `controller.abort()` fires and `fetch`
rejects with an error named AbortError. -/
def resolveFetch {β : Type} (timeout elapsed : Nat) (outcome : HttpOutcome β) :
    HttpOutcome β :=
  if timeout < elapsed then .throwNamed "AbortError" "Aborted" else outcome

/-- Private `makeRequest` of GoProService: non-2xx responses become
`invalid_response`, a rejection named AbortError becomes `api_timeout`, any
other rejection (body-parse failures included) becomes `network_error`. -/
def makeRequest {β : Type} (endpoint : String) (timeout elapsed : Nat)
    (outcome : HttpOutcome β) (now : Nat) : Result β :=
  match resolveFetch timeout elapsed outcome with
  | .throwNamed n msg =>
      if n = "AbortError" then
        .err (createError .api_timeout "Request timed out"
          (some ("Timeout after " ++ toString timeout ++ "ms")) now)
      else
        .err (createError .network_error "Network request failed" (some msg) now)
  | .response ok status statusText jsonResult =>
      if !ok then
        .err (createError .invalid_response
          ("HTTP " ++ toString status ++ ": " ++ statusText)
          (some ("Failed to fetch " ++ endpoint)) now)
      else
        match jsonResult with
        | .ok d => .ok d
        | .error msg =>
            .err (createError .network_error "Network request failed" (some msg) now)

/-- Method `pingCamera()`: a HEAD probe with its own 3000 ms abort timer; any
rejection — the abort included — is caught and reported as `network_error`; a
response yields its `ok` flag as the data. -/
def pingCamera (elapsed : Nat) (outcome : HttpOutcome Unit) (now : Nat) : Result Bool :=
  match resolveFetch 3000 elapsed outcome with
  | .throwNamed _ msg =>
      .err (createError .network_error "Cannot reach GoPro camera" (some msg) now)
  | .response ok _ _ _ => .ok ok

/-- GoProCameraStatus from GoProTypes.ts; the optional fields may be absent
from the payload. -/
structure GoProCameraStatus where
  status : Nat
  battery_level : Option Nat
  recording : Option Bool
  mode : Option String
deriving DecidableEq, Repr

/-- Method `getCameraStatus()`: a GET through the shared request path. -/
def getCameraStatus (timeout elapsed : Nat) (outcome : HttpOutcome GoProCameraStatus)
    (now : Nat) : Result GoProCameraStatus :=
  makeRequest STATUS_ENDPOINT timeout elapsed outcome now

/-- Method `getBatteryLevel()`: fails with `invalid_response` exactly on a
strictly absent (`undefined`) battery field. -/
def getBatteryLevel (timeout elapsed : Nat) (outcome : HttpOutcome GoProCameraStatus)
    (now : Nat) : Result Nat :=
  match getCameraStatus timeout elapsed outcome now with
  | .err e => .err e
  | .ok s =>
      match s.battery_level with
      | none =>
          .err (createError .invalid_response "Battery level not available"
            (some "Camera status response missing battery information") now)
      | some batteryLevel => .ok batteryLevel

/-- Method `isRecording()`: `recording || false` defaults an absent flag to
false. -/
def isRecording (timeout elapsed : Nat) (outcome : HttpOutcome GoProCameraStatus)
    (now : Nat) : Result Bool :=
  match getCameraStatus timeout elapsed outcome now with
  | .err e => .err e
  | .ok s => .ok (s.recording.getD false)

/-- JavaScript falsiness of an optional string, as in `if (!mode)`: true on an
absent value and on the empty string. -/
def jsFalsyStr : Option String → Bool
  | none => true
  | some s => s == ""

/-- Method `getCurrentMode()`: the guard is the JavaScript truthiness test
`if (!mode)`, so an empty-string mode is rejected like an absent one. -/
def getCurrentMode (timeout elapsed : Nat) (outcome : HttpOutcome GoProCameraStatus)
    (now : Nat) : Result String :=
  match getCameraStatus timeout elapsed outcome now with
  | .err e => .err e
  | .ok s =>
      if jsFalsyStr s.mode then
        .err (createError .invalid_response "Camera mode not available"
          (some "Camera status response missing mode information") now)
      else .ok (s.mode.getD "")

/-- GoProMediaFile from GoProTypes.ts. -/
structure GoProMediaFile where
  id : String
  name : String
  size : Nat
  date : String
  type : String
deriving DecidableEq, Repr

/-- GoProMediaList from GoProTypes.ts. -/
structure GoProMediaList where
  media : List GoProMediaFile
  total_count : Nat
deriving DecidableEq, Repr

/-- Method `getMediaList()`: fetches the media-list endpoint and projects out
the `media` array. -/
def getMediaList (timeout elapsed : Nat) (outcome : HttpOutcome GoProMediaList)
    (now : Nat) : Result (List GoProMediaFile) :=
  match makeRequest MEDIA_LIST_ENDPOINT timeout elapsed outcome now with
  | .ok ml => .ok ml.media
  | .err e => .err e

/-- Type selector of the media filter argument. -/
inductive MediaTypeFilter where
  | video
  | photo
  | all
deriving DecidableEq, Repr

/-- Filter argument of `getMediaFiles`; both fields are optional. -/
structure MediaFilter where
  type : Option MediaTypeFilter
  format : Option String
deriving Repr

/-- First filtering pass of `getMediaFiles`: applied only when a type other
than 'all' is requested; keeps files whose lower-cased type equals the
requested token. -/
def typeFilterStep (ft : Option MediaTypeFilter) (files : List GoProMediaFile) :
    List GoProMediaFile :=
  match ft with
  | some .video => files.filter fun file => strToLower file.type == "video"
  | some .photo => files.filter fun file => strToLower file.type == "photo"
  | _ => files

/-- Second filtering pass of `getMediaFiles`: applied only when a format
string is given; keeps files whose lower-cased name contains the lower-cased
format string. -/
def formatFilterStep (fmt : Option String) (files : List GoProMediaFile) :
    List GoProMediaFile :=
  match fmt with
  | some fmtStr =>
      files.filter fun file => strIncludes (strToLower file.name) (strToLower fmtStr)
  | none => files

/-- Method `getMediaFiles(filter)`: fetches the media list, then applies the
type pass followed by the format pass in memory. -/
def getMediaFiles (filter : Option MediaFilter) (timeout elapsed : Nat)
    (outcome : HttpOutcome GoProMediaList) (now : Nat) :
    Result (List GoProMediaFile) :=
  match getMediaList timeout elapsed outcome now with
  | .err e => .err e
  | .ok files =>
      .ok (formatFilterStep
            (match filter with | some fl => fl.format | none => none)
            (typeFilterStep
              (match filter with | some fl => fl.type | none => none) files))

/-! Claim-side predicates. -/

/-- Case-insensitive containment of a pattern in a string, as the spec reads:
both sides are lower-cased before the substring test. -/
def containsCaseInsensitive (s pat : String) : Bool :=
  strIncludes (strToLower s) (strToLower pat)

/-- Known device patterns are already lower-case. -/
theorem patterns_lowercase : ∀ p ∈ GOPRO_DEVICE_PATTERNS, strToLower p = p := by
  decide

/-- C9: isGoProDevice returns true exactly when the device's name or local
name contains one of the known GoPro patterns case-insensitively; absent
names are treated as the empty string and match nothing. -/
theorem C9_isGoProDevice_classification (d : Device) :
    isGoProDevice d = true ↔
      ∃ pattern ∈ GOPRO_DEVICE_PATTERNS,
        (containsCaseInsensitive (d.name.getD "") pattern = true ∨
         containsCaseInsensitive (d.localName.getD "") pattern = true) := by
  unfold isGoProDevice
  rw [List.any_eq_true]
  constructor
  · rintro ⟨p, hp, hf⟩
    rw [Bool.or_eq_true] at hf
    refine ⟨p, hp, ?_⟩
    unfold containsCaseInsensitive
    rw [patterns_lowercase p hp]
    exact hf
  · rintro ⟨p, hp, hf⟩
    refine ⟨p, hp, ?_⟩
    rw [Bool.or_eq_true]
    unfold containsCaseInsensitive at hf
    rw [patterns_lowercase p hp] at hf
    exact hf

/-- C8: whenever the adapter reports PoweredOff, the handler forces the
connection status back to disconnected and clears the Connected Device, from
any service state whatsoever. -/
theorem C8_power_off_forces_disconnect (st : BluetoothServiceState) :
    (onStateChange st .PoweredOff).connectionStatus = .disconnected ∧
    (onStateChange st .PoweredOff).connectedDevice = none := by
  constructor <;> rfl

/-- C10: disconnect() with no Connected Device returns success and leaves the
whole service state unchanged — in particular the connection status keeps its
prior value and the discovered-device directory is untouched. -/
theorem C10_disconnect_without_device_is_noop (st : BluetoothServiceState) (now : Nat)
    (h : st.connectedDevice = none) :
    disconnect st now = (.ok (), st) := by
  unfold disconnect
  rw [h]

/-- Witness for C10 at a state whose status is bluetooth_pairing: the status
is not reset to disconnected. -/
theorem C10_disconnect_without_device_is_noop_witness :
    disconnect ⟨true, [], none, .bluetooth_pairing⟩ 7 =
      (.ok (), ⟨true, [], none, .bluetooth_pairing⟩) :=
  C10_disconnect_without_device_is_noop ⟨true, [], none, .bluetooth_pairing⟩ 7 rfl

/-- C1 counterexample: a discovered device whose transport connect succeeds
but whose service discovery rejects.  The claim demands a connection_failed
failure for a failing enumeration step, yet connectToDevice succeeds, because
discoverServices swallows the rejection into an empty list. -/
theorem C1_counterexample :
    isOk (connectToDevice ⟨false, [("D1", ⟨⟨"D1", some "GoPro Hero11", none, some (-40),
      Except.ok (), Except.error "service discovery exploded", Except.ok ()⟩,
      "GoPro Hero11", -40, true, none, none⟩)], none, ConnectionStatus.disconnected⟩
      "D1" 0).1 = true := rfl

/-- C1 as amended: an unknown identifier fails with device_not_found; a failed
transport connect fails with connection_failed wrapping the transport error
and reverts the status to disconnected; once the transport connect succeeds
the call succeeds regardless of enumeration outcomes, storing the Connected
Device and setting status bluetooth_connected; a rejected service discovery
is swallowed into empty service and characteristic lists. -/
theorem C1_connectToDevice_behavior (st : BluetoothServiceState) (deviceId : String)
    (now : Nat) :
    (mapGet st.discoveredDevices deviceId = none →
      errType (connectToDevice st deviceId now).1 = some .device_not_found) ∧
    (∀ gd msg, mapGet st.discoveredDevices deviceId = some gd →
      gd.device.connectResult = Except.error msg →
      errType (connectToDevice st deviceId now).1 = some .connection_failed ∧
      errDetails (connectToDevice st deviceId now).1 = some msg ∧
      (connectToDevice st deviceId now).2.connectionStatus = .disconnected) ∧
    (∀ gd, mapGet st.discoveredDevices deviceId = some gd →
      gd.device.connectResult = Except.ok () →
      (connectToDevice st deviceId now).1 = .ok (enumerateDevice gd) ∧
      (connectToDevice st deviceId now).2.connectedDevice = some (enumerateDevice gd) ∧
      (connectToDevice st deviceId now).2.connectionStatus = .bluetooth_connected) ∧
    (∀ gd msg, mapGet st.discoveredDevices deviceId = some gd →
      gd.device.connectResult = Except.ok () →
      gd.device.discoverResult = Except.error msg →
      (connectToDevice st deviceId now).1 =
        .ok { gd with services := some [], characteristics := some [] }) := by
  refine ⟨?_, ?_, ?_, ?_⟩
  · intro h
    simp [connectToDevice, h, errType, createError]
  · intro gd msg h1 h2
    simp [connectToDevice, h1, h2, errType, errDetails, createError]
  · intro gd h1 h2
    simp [connectToDevice, h1, h2]
  · intro gd msg h1 h2 h3
    simp only [connectToDevice, h1, h2, enumerateDevice, discoverServices, h3,
      List.map_nil, List.flatten_nil]

/-- Witness for C1: the unknown-identifier branch at an empty directory. -/
theorem C1_connectToDevice_behavior_witness :
    errType (connectToDevice ⟨false, [], none, .disconnected⟩ "nope" 3).1 =
      some .device_not_found :=
  (C1_connectToDevice_behavior ⟨false, [], none, .disconnected⟩ "nope" 3).1 rfl

/-- C3 counterexample: a Connected Device whose cancelConnection rejects.  The
claim demands that disconnect always return success, yet the rejection is
caught into a failed result (of kind unknown). -/
theorem C3_counterexample :
    isOk (disconnect ⟨false, [], some ⟨⟨"D1", some "GoPro Max", none, some (-40),
        Except.ok (), Except.ok [], Except.error "teardown refused"⟩,
        "GoPro Max", -40, true, none, none⟩, ConnectionStatus.bluetooth_connected⟩ 0).1
      = false := rfl

/-- C3 as amended: disconnect succeeds and leaves the state untouched when no
device is connected; it succeeds, clears the Connected Device and sets status
disconnected when the transport teardown resolves; when the teardown rejects
it returns a failed result of kind unknown wrapping the transport error —
the error is surfaced, not swallowed — and leaves the device and status
unchanged. -/
theorem C3_disconnect_behavior (st : BluetoothServiceState) (now : Nat) :
    (st.connectedDevice = none → disconnect st now = (.ok (), st)) ∧
    (∀ gd, st.connectedDevice = some gd →
      gd.device.cancelConnectionResult = Except.ok () →
      disconnect st now =
        (.ok (), { st with connectedDevice := none, connectionStatus := .disconnected })) ∧
    (∀ gd msg, st.connectedDevice = some gd →
      gd.device.cancelConnectionResult = Except.error msg →
      disconnect st now =
        (.err (createError .unknown "Failed to disconnect" (some msg) now), st)) := by
  refine ⟨?_, ?_, ?_⟩
  · intro h
    simp only [disconnect, h]
  · intro gd h1 h2
    simp only [disconnect, h1, h2]
  · intro gd msg h1 h2
    simp only [disconnect, h1, h2]

/-- Witness for C3: the rejected-teardown branch returns the unknown-kind
failure and preserves the state. -/
theorem C3_disconnect_behavior_witness :
    disconnect ⟨false, [], some ⟨⟨"D1", some "GoPro Max", none, some (-40),
        Except.ok (), Except.ok [], Except.error "teardown refused"⟩,
        "GoPro Max", -40, true, none, none⟩, ConnectionStatus.bluetooth_connected⟩ 5 =
      (.err ⟨.unknown, "Failed to disconnect", some "teardown refused", 5⟩,
       ⟨false, [], some ⟨⟨"D1", some "GoPro Max", none, some (-40),
        Except.ok (), Except.ok [], Except.error "teardown refused"⟩,
        "GoPro Max", -40, true, none, none⟩, ConnectionStatus.bluetooth_connected⟩) :=
  (C3_disconnect_behavior ⟨false, [], some ⟨⟨"D1", some "GoPro Max", none, some (-40),
      Except.ok (), Except.ok [], Except.error "teardown refused"⟩,
      "GoPro Max", -40, true, none, none⟩, ConnectionStatus.bluetooth_connected⟩ 5).2.2
    ⟨⟨"D1", some "GoPro Max", none, some (-40),
      Except.ok (), Except.ok [], Except.error "teardown refused"⟩,
      "GoPro Max", -40, true, none, none⟩ "teardown refused" rfl rfl

/-- C6 counterexample: startScanning runs the Bluetooth support check before
the in-flight test, so a call made while a scan is running but with the
adapter powered off returns a failure, not success. -/
theorem C6_counterexample :
    (⟨true, [], none, .disconnected⟩ : BluetoothServiceState).isScanning = true ∧
    isOk (startScanning ⟨true, [], none, .disconnected⟩ (Except.ok .PoweredOff) 0).1
      = false :=
  ⟨rfl, rfl⟩

/-- C6 as amended: provided the Bluetooth support check passes, startScanning
called while a scan is already running returns success and changes nothing —
the discovery set is kept and neither the device scan nor the duration timer
is started — and only when no scan is in flight does it clear the discovery
set, start the scan and schedule the timer; when the support check fails its
failure is returned even while scanning. -/
theorem C6_startScanning_in_flight (st : BluetoothServiceState)
    (stateResult : Except String BleState) (now : Nat)
    (hok : isOk (checkBluetoothSupport stateResult now) = true) :
    (st.isScanning = true →
      startScanning st stateResult now = (.ok (), st, ⟨false, false⟩)) ∧
    (st.isScanning = false →
      startScanning st stateResult now =
        (.ok (), { st with isScanning := true, discoveredDevices := [] }, ⟨true, true⟩)) := by
  cases hc : checkBluetoothSupport stateResult now with
  | err e => rw [hc] at hok; exact absurd hok (by simp [isOk])
  | ok b =>
      constructor
      · intro hscan
        simp [startScanning, hc, hscan]
      · intro hscan
        simp [startScanning, hc, hscan]

/-- Witness for C6 at a one-entry discovery set: the set and scanning flag
survive and no effects are requested. -/
theorem C6_startScanning_in_flight_witness :
    startScanning ⟨true, [("D1", ⟨⟨"D1", some "GoPro Hero11", none, some (-40),
        Except.ok (), Except.ok [], Except.ok ()⟩,
        "GoPro Hero11", -40, true, none, none⟩)], none, .disconnected⟩
      (Except.ok .PoweredOn) 2 =
      (.ok (), ⟨true, [("D1", ⟨⟨"D1", some "GoPro Hero11", none, some (-40),
        Except.ok (), Except.ok [], Except.ok ()⟩,
        "GoPro Hero11", -40, true, none, none⟩)], none, .disconnected⟩,
       ⟨false, false⟩) :=
  (C6_startScanning_in_flight ⟨true, [("D1", ⟨⟨"D1", some "GoPro Hero11", none,
      some (-40), Except.ok (), Except.ok [], Except.ok ()⟩,
      "GoPro Hero11", -40, true, none, none⟩)], none, .disconnected⟩
    (Except.ok .PoweredOn) 2 rfl).1 rfl

/-- C7: getWiFiCredentials fails with connection_failed when no device is
connected; it fails with connection_failed when either the SSID or the
password characteristic is missing from the connected device's characteristic
set; and when both are found and both reads resolve, it returns the pair of
decoded credential texts. -/
theorem C7_getWiFiCredentials_behavior (st : BluetoothServiceState) (now : Nat) :
    (st.connectedDevice = none →
      errType (getWiFiCredentials st now) = some .connection_failed) ∧
    (∀ gd, st.connectedDevice = some gd →
      (findCharacteristic (gd.characteristics.getD []) WIFI_SSID = none ∨
       findCharacteristic (gd.characteristics.getD []) WIFI_PASSWORD = none) →
      errType (getWiFiCredentials st now) = some .connection_failed) ∧
    (∀ gd sc pc sv pv, st.connectedDevice = some gd →
      findCharacteristic (gd.characteristics.getD []) WIFI_SSID = some sc →
      findCharacteristic (gd.characteristics.getD []) WIFI_PASSWORD = some pc →
      sc.readResult = Except.ok sv → pc.readResult = Except.ok pv →
      getWiFiCredentials st now =
        .ok (decodeCharacteristicValue sv, decodeCharacteristicValue pv)) := by
  refine ⟨?_, ?_, ?_⟩
  · intro h
    simp [getWiFiCredentials, h, errType, createError]
  · intro gd h1 hmiss
    rcases hmiss with hm | hm
    · simp only [getWiFiCredentials, h1, hm]
      cases findCharacteristic (gd.characteristics.getD []) WIFI_PASSWORD <;> rfl
    · simp only [getWiFiCredentials, h1, hm]
      cases findCharacteristic (gd.characteristics.getD []) WIFI_SSID <;> rfl
  · intro gd sc pc sv pv h1 hsc hpc hsv hpv
    simp only [getWiFiCredentials, h1, hsc, hpc, hsv, hpv]

/-- Witness for C7: both characteristics present, both reads resolving to
base64 payloads; the result is the decoded pair ("GP", "pass1234") as byte
sequences. -/
theorem C7_getWiFiCredentials_behavior_witness :
    getWiFiCredentials ⟨false, [], some ⟨⟨"D1", some "GoPro Hero11", none, some (-40),
        Except.ok (), Except.ok [], Except.ok ()⟩, "GoPro Hero11", -40, true, none,
        some [⟨"fea6-0001", Except.ok (some "R1A=")⟩,
              ⟨"fea6-0002", Except.ok (some "cGFzczEyMzQ=")⟩]⟩,
      ConnectionStatus.bluetooth_connected⟩ 0 =
    .ok ([71, 80], [112, 97, 115, 115, 49, 50, 51, 52]) :=
  ((C7_getWiFiCredentials_behavior ⟨false, [], some ⟨⟨"D1", some "GoPro Hero11", none,
        some (-40), Except.ok (), Except.ok [], Except.ok ()⟩,
        "GoPro Hero11", -40, true, none,
        some [⟨"fea6-0001", Except.ok (some "R1A=")⟩,
              ⟨"fea6-0002", Except.ok (some "cGFzczEyMzQ=")⟩]⟩,
      ConnectionStatus.bluetooth_connected⟩ 0).2.2
    ⟨⟨"D1", some "GoPro Hero11", none, some (-40),
        Except.ok (), Except.ok [], Except.ok ()⟩, "GoPro Hero11", -40, true, none,
        some [⟨"fea6-0001", Except.ok (some "R1A=")⟩,
              ⟨"fea6-0002", Except.ok (some "cGFzczEyMzQ=")⟩]⟩
    ⟨"fea6-0001", Except.ok (some "R1A=")⟩
    ⟨"fea6-0002", Except.ok (some "cGFzczEyMzQ=")⟩
    (some "R1A=") (some "cGFzczEyMzQ=") rfl rfl rfl rfl rfl).trans rfl

/-- C2 counterexample: a ping whose request takes 3001 ms, past its 3000 ms
abort timer.  The claim demands kind api_timeout for pingCamera as well, but
the probe's own catch block reports every rejection — the abort included — as
network_error. -/
theorem C2_counterexample :
    errType (pingCamera 3001 (HttpOutcome.response true 200 "OK" (Except.ok ())) 0) =
      some .network_error ∧
    errType (pingCamera 3001 (HttpOutcome.response true 200 "OK" (Except.ok ())) 0) ≠
      some .api_timeout :=
  ⟨rfl, by decide⟩

/-- C2 as amended: every call through the shared request path (`makeRequest`,
and so `getCameraStatus` and the other API methods) resolves with kind
api_timeout when the request outlasts the configured timeout; pingCamera also
resolves rather than hanging, but reports kind network_error on its 3000 ms
timeout. -/
theorem C2_timeout_behavior {β : Type} (endpoint : String) (timeout elapsed now : Nat)
    (outcome : HttpOutcome β) (elapsedS nowS : Nat)
    (outcomeS : HttpOutcome GoProCameraStatus) (elapsedP nowP : Nat)
    (outcomeP : HttpOutcome Unit)
    (h1 : timeout < elapsed) (h2 : timeout < elapsedS) (h3 : 3000 < elapsedP) :
    errType (makeRequest endpoint timeout elapsed outcome now) = some .api_timeout ∧
    errType (getCameraStatus timeout elapsedS outcomeS nowS) = some .api_timeout ∧
    errType (pingCamera elapsedP outcomeP nowP) = some .network_error := by
  refine ⟨?_, ?_, ?_⟩
  · simp [makeRequest, resolveFetch, h1, errType, createError]
  · simp [getCameraStatus, makeRequest, resolveFetch, h2, errType, createError]
  · simp [pingCamera, resolveFetch, h3, errType, createError]

/-- Witness for C2 at concrete durations one millisecond past each timeout. -/
theorem C2_timeout_behavior_witness :
    errType (makeRequest "/gp/gpControl/info" 5000 5001
        (HttpOutcome.response true 200 "OK" (Except.ok (0 : Nat))) 0) =
      some .api_timeout ∧
    errType (getCameraStatus 5000 5001
        (HttpOutcome.response true 200 "OK"
          (Except.ok ⟨1, some 50, some false, some "video"⟩)) 0) = some .api_timeout ∧
    errType (pingCamera 3001 (HttpOutcome.response true 200 "OK" (Except.ok ())) 1) =
      some .network_error :=
  @C2_timeout_behavior Nat "/gp/gpControl/info" 5000 5001 0
    (HttpOutcome.response true 200 "OK" (Except.ok 0))
    5001 0
    (HttpOutcome.response true 200 "OK" (Except.ok ⟨1, some 50, some false, some "video"⟩))
    3001 1 (HttpOutcome.response true 200 "OK" (Except.ok ()))
    (by decide) (by decide) (by decide)

/-- Composing two filter passes equals one pass with the conjunction. -/
theorem filter_comp_and {α : Type} (p q : α → Bool) (l : List α) :
    (l.filter p).filter q = l.filter fun a => p a && q a := by
  induction l with
  | nil => rfl
  | cons a tl ih => cases hp : p a <;> cases hq : q a <;> simp [List.filter_cons, hp, hq, ih]

/-- Claim-side type predicate: keep an entry when no type (or 'all') is
requested, otherwise exactly when its type matches case-insensitively. -/
def keepByType : Option MediaTypeFilter → GoProMediaFile → Bool
  | some .video, f => strToLower f.type == "video"
  | some .photo, f => strToLower f.type == "photo"
  | _, _ => true

/-- Claim-side format predicate: keep an entry when no format is requested,
otherwise exactly when its name contains the format string
case-insensitively. -/
def keepByFormat : Option String → GoProMediaFile → Bool
  | some fmtStr, f => strIncludes (strToLower f.name) (strToLower fmtStr)
  | none, _ => true

/-- C4: on a successfully fetched media list, getMediaFiles returns exactly
the entries surviving the conjunction of the optional case-insensitive type
match and the optional case-insensitive name-substring match, as one filter
pass over the original list — so survivors keep their original order — and
with no filter at all the list is returned unchanged. -/
theorem C4_getMediaFiles_filter (files : List GoProMediaFile) (total : Nat)
    (fl : MediaFilter) (timeout elapsed now : Nat) (h : elapsed ≤ timeout) :
    getMediaFiles (some fl) timeout elapsed
        (HttpOutcome.response true 200 "OK" (Except.ok ⟨files, total⟩)) now =
      .ok (files.filter fun f => keepByType fl.type f && keepByFormat fl.format f) ∧
    getMediaFiles none timeout elapsed
        (HttpOutcome.response true 200 "OK" (Except.ok ⟨files, total⟩)) now =
      .ok files := by
  have hnl : ¬ timeout < elapsed := Nat.not_lt.mpr h
  have hlist : getMediaList timeout elapsed
      (HttpOutcome.response true 200 "OK" (Except.ok ⟨files, total⟩)) now = .ok files := by
    simp [getMediaList, makeRequest, resolveFetch, hnl]
  obtain ⟨ft, ff⟩ := fl
  constructor
  · simp only [getMediaFiles, hlist]
    cases ft with
    | none =>
        cases ff <;>
          simp [typeFilterStep, formatFilterStep, keepByType, keepByFormat]
    | some t =>
        cases t <;> cases ff <;>
          simp [typeFilterStep, formatFilterStep, keepByType, keepByFormat,
            filter_comp_and, Bool.and_comm]
  · simp [getMediaFiles, hlist, typeFilterStep, formatFilterStep]

/-- Witness for C4, mirroring the spec scenario: a list of 2 video and 3
photo entries filtered by type 'video' returns exactly the 2 video entries in
their original order (one of them lower-case to exercise the
case-insensitive match). -/
theorem C4_getMediaFiles_filter_witness :
    getMediaFiles (some ⟨some MediaTypeFilter.video, none⟩) 5000 0
      (HttpOutcome.response true 200 "OK" (Except.ok ⟨[
        ⟨"1", "GOPR0001.MP4", 100, "2024-01-01", "Video"⟩,
        ⟨"2", "GOPR0002.JPG", 50, "2024-01-01", "Photo"⟩,
        ⟨"3", "GOPR0003.360", 200, "2024-01-02", "video"⟩,
        ⟨"4", "GOPR0004.JPG", 60, "2024-01-02", "Photo"⟩,
        ⟨"5", "GOPR0005.JPG", 70, "2024-01-03", "Photo"⟩], 5⟩)) 0 =
    .ok [⟨"1", "GOPR0001.MP4", 100, "2024-01-01", "Video"⟩,
         ⟨"3", "GOPR0003.360", 200, "2024-01-02", "video"⟩] :=
  (C4_getMediaFiles_filter [
      ⟨"1", "GOPR0001.MP4", 100, "2024-01-01", "Video"⟩,
      ⟨"2", "GOPR0002.JPG", 50, "2024-01-01", "Photo"⟩,
      ⟨"3", "GOPR0003.360", 200, "2024-01-02", "video"⟩,
      ⟨"4", "GOPR0004.JPG", 60, "2024-01-02", "Photo"⟩,
      ⟨"5", "GOPR0005.JPG", 70, "2024-01-03", "Photo"⟩] 5
    ⟨some MediaTypeFilter.video, none⟩ 5000 0 0 (by decide)).1.trans (by rfl)

/-- C5 counterexample: a status payload whose mode field is present but the
empty string.  The claim says getCurrentMode fails exactly when the field is
absent, but the JavaScript truthiness guard also rejects the present empty
string with invalid_response. -/
theorem C5_counterexample :
    (⟨1, some 50, some false, some ""⟩ : GoProCameraStatus).mode = some "" ∧
    errType (getCurrentMode 5000 10
      (HttpOutcome.response true 200 "OK"
        (Except.ok ⟨1, some 50, some false, some ""⟩)) 0) = some .invalid_response :=
  ⟨rfl, rfl⟩

/-- C5 as amended: on a successfully fetched status payload, getBatteryLevel
fails with invalid_response exactly when the battery field is absent (and
returns the level when present), getCurrentMode fails with invalid_response
exactly when the mode field is absent or the empty string, and isRecording
never fails — it returns false when the recording field is absent. -/
theorem C5_derived_reads (timeout elapsed now : Nat) (s : GoProCameraStatus)
    (h : elapsed ≤ timeout) :
    (errType (getBatteryLevel timeout elapsed
        (HttpOutcome.response true 200 "OK" (Except.ok s)) now) =
          some .invalid_response ↔ s.battery_level = none) ∧
    (∀ b, s.battery_level = some b →
      getBatteryLevel timeout elapsed
        (HttpOutcome.response true 200 "OK" (Except.ok s)) now = .ok b) ∧
    (errType (getCurrentMode timeout elapsed
        (HttpOutcome.response true 200 "OK" (Except.ok s)) now) =
          some .invalid_response ↔ (s.mode = none ∨ s.mode = some "")) ∧
    (s.recording = none →
      isRecording timeout elapsed
        (HttpOutcome.response true 200 "OK" (Except.ok s)) now = .ok false) ∧
    isOk (isRecording timeout elapsed
        (HttpOutcome.response true 200 "OK" (Except.ok s)) now) = true := by
  have hnl : ¬ timeout < elapsed := Nat.not_lt.mpr h
  have hstat : getCameraStatus timeout elapsed
      (HttpOutcome.response true 200 "OK" (Except.ok s)) now = .ok s := by
    simp [getCameraStatus, makeRequest, resolveFetch, hnl]
  refine ⟨?_, ?_, ?_, ?_, ?_⟩
  · unfold getBatteryLevel
    rw [hstat]
    cases hb : s.battery_level <;> simp [hb, errType, createError]
  · intro b hb
    simp [getBatteryLevel, hstat, hb]
  · unfold getCurrentMode
    rw [hstat]
    cases hm : s.mode with
    | none => simp [jsFalsyStr, hm, errType, createError]
    | some m =>
        rcases eq_or_ne m "" with hme | hme
        · subst hme
          simp [jsFalsyStr, hm, errType, createError]
        · simp [jsFalsyStr, hm, hme, errType]
  · intro hr
    simp [isRecording, hstat, hr]
  · simp [isRecording, hstat, isOk]

/-- Witness for C5: a payload missing battery and recording fields — the
battery read fails with invalid_response, the recording read succeeds with
false. -/
theorem C5_derived_reads_witness :
    errType (getBatteryLevel 5000 0 (HttpOutcome.response true 200 "OK"
        (Except.ok ⟨1, none, none, some "video"⟩)) 0) = some .invalid_response ∧
    isRecording 5000 0 (HttpOutcome.response true 200 "OK"
        (Except.ok ⟨1, none, none, some "video"⟩)) 0 = .ok false := by
  have h := C5_derived_reads 5000 0 0 ⟨1, none, none, some "video"⟩ (by decide)
  exact ⟨h.1.mpr rfl, h.2.2.2.1 rfl⟩

end GoProSpec
